import Mathlib

/-!
Shallow embedding of the VATFix-Plus validation fallback engine and windowed
usage meter (src/validate.js, src/meter.js, and the legacy modules
src/lib/validate.js, src/lib/meter.js).

JavaScript strings are modelled as lists of characters (`JsStr`), instants
(`Date` values, `Date.now()`, the instant denoted by an ISO-8601 string) as
integers counting milliseconds since the epoch, and every effectful boundary
(the SOAP upstream call, each S3 read) as an explicit input of the function
that performs it: a failed or unconfigured store read is `none`, a failed
upstream call is `Except.error` carrying the error's message.
-/

/-- A JavaScript string, as its list of characters. -/
abbrev JsStr := List Char

/-- The character class of JavaScript's `\s` (and of `String.prototype.trim`):
space, tab, line feed, vertical tab, form feed, carriage return, no-break
space, line separator, paragraph separator, BOM. -/
def jsWhitespace (c : Char) : Bool :=
  c.toNat = 32 || c.toNat = 9 || c.toNat = 10 || c.toNat = 11 || c.toNat = 12 ||
  c.toNat = 13 || c.toNat = 160 || c.toNat = 0x2028 || c.toNat = 0x2029 || c.toNat = 0xFEFF

/-- One character of `String.prototype.toUpperCase`, restricted to ASCII (the
inputs of this system are country codes and VAT numbers). -/
def jsToUpperChar (c : Char) : Char :=
  if 97 ≤ c.toNat ∧ c.toNat ≤ 122 then
    Char.ofNat (c.toNat - 32)
  else c

/-- `String.prototype.toUpperCase`. -/
def upperStr (s : JsStr) : JsStr := s.map jsToUpperChar

/-- `s.replace(/\s+/g, '')`: remove every whitespace character. -/
def stripWs (s : JsStr) : JsStr := s.filter (fun c => !jsWhitespace c)

/-- Leading-whitespace removal (half of `String.prototype.trim`). -/
def trimLeftStr (s : JsStr) : JsStr := s.dropWhile jsWhitespace

/-- Trailing-whitespace removal (the other half of `trim`). -/
def trimRightStr (s : JsStr) : JsStr := (s.reverse.dropWhile jsWhitespace).reverse

/-- `String.prototype.trim`. -/
def trimStr (s : JsStr) : JsStr := trimRightStr (trimLeftStr s)

/-- `String(countryCode || '').toUpperCase().trim()` (src/validate.js line 109). -/
def normCC (s : JsStr) : JsStr := trimStr (upperStr s)

/-- `String(vatNumber || '').replace(/\s+/g, '')` (src/validate.js line 110). -/
def normVN (s : JsStr) : JsStr := stripWs s

/-- `cacheKey` of src/validate.js lines 21-22. -/
def cacheKey (countryCode vatNumber : JsStr) : JsStr :=
  "cache/".toList ++ upperStr countryCode ++ "_".toList ++ stripWs vatNumber ++ ".json".toList

/-- JavaScript `a || b` on strings: the empty string (and, at this model's
boundary, an absent value coerced to it) is falsy. Used for
`res.countryCode || cc` and `res.vatNumber || vn` (src/validate.js 125-126). -/
def jsOr (a b : JsStr) : JsStr := if a = [] then b else a

/-- JavaScript `s || null` on strings: `res.name || null`,
`res.address || null` (src/validate.js 128-129). -/
def jsToNull (s : JsStr) : Option JsStr := if s = [] then none else some s

/-- Base-36 digit, as produced by `Number.prototype.toString(36)`. -/
def digit36 (n : Nat) : Char :=
  if n < 10 then Char.ofNat (48 + n) else Char.ofNat (87 + n)

/-- Accumulator loop of the base-36 rendering of a natural number. -/
def toBase36Go (n : Nat) (acc : JsStr) : JsStr :=
  if h : n = 0 then acc
  else toBase36Go (n / 36) (digit36 (n % 36) :: acc)
termination_by n
decreasing_by exact Nat.div_lt_self (Nat.pos_of_ne_zero h) (by decide)

/-- `Date.now().toString(36)` (src/validate.js line 111), for a nonnegative
instant. -/
def toBase36 (n : Nat) : JsStr :=
  if n = 0 then "0".toList else toBase36Go n []

/-- The value of `res.requestDate` as handed to `normalizeRequestDate`: a
`Date` object (possibly an Invalid Date, carried as `none`), a string, or a
value of any other type. A valid `Date` is modelled by the instant it denotes. -/
inductive RDVal where
  | date (t : Option Int)
  | str (s : JsStr)
  | other
deriving DecidableEq

/-- The regex fix of src/validate.js line 96:
`rd.replace(/(\+\d{2}):?(\d{2})$/, '$1$2')` — a trailing `+HH:MM` timezone
offset loses its colon (a trailing `+HHMM` already matches the replacement). -/
def fixTz (s : JsStr) : JsStr :=
  match s.reverse with
  | m2 :: m1 :: ':' :: h2 :: h1 :: '+' :: r =>
      if m2.isDigit && m1.isDigit && h2.isDigit && h1.isDigit then
        (m2 :: m1 :: h2 :: h1 :: '+' :: r).reverse
      else s
  | _ => s

/-- `normalizeRequestDate` of src/validate.js lines 90-101. `parse` models the
JavaScript builtin `new Date(string)` (`none` = Invalid Date); the function
returns the instant whose `toISOString()` rendering the source emits, so a
malformed input string can never be passed through: every return path of the
source is `d.toISOString()` for a valid `Date` `d`, which by the ECMAScript
standard is a well-formed ISO-8601 instant. -/
def normalizeRequestDate (parse : JsStr → Option Int) (now : Int) : RDVal → Int
  | .date (some t) => t
  | .date none => now
  | .str s =>
      match parse (fixTz s) with
      | some t => t
      | none => now
  | .other => now

/-- The raw upstream response of `viesCall` (src/validate.js lines 77-87):
`{ countryCode, vatNumber, requestDate, valid, name, address }`. An absent or
null string field is carried as the (equally falsy) empty string; `valid` is
already the boolean that `!!res.valid` yields. -/
structure ViesRaw where
  countryCode : JsStr
  vatNumber : JsStr
  valid : Bool
  name : JsStr
  address : JsStr
  requestDate : RDVal

/-- The stable payload of src/validate.js line 2: `{ countryCode, vatNumber,
valid, name, address, requestDate, lookupId, source, cacheTtlMs, [cached],
[error] }`. An optional field that the source leaves absent is `none`; a field
the source sets to `null` is also an explicit `none` of its option type.
`requestDate` is the instant whose ISO-8601 rendering the source stores. -/
structure Payload where
  countryCode : JsStr
  vatNumber : JsStr
  valid : Bool
  name : Option JsStr
  address : Option JsStr
  requestDate : Int
  lookupId : JsStr
  source : JsStr
  cacheTtlMs : Int
  cached : Option Bool
  error : Option JsStr
deriving DecidableEq

/-- A cache record as written by `setCached` (src/validate.js lines 69-74):
`{ cachedAt, payload }`, `cachedAt` being the instant of the stored ISO
timestamp. -/
structure CacheRec where
  cachedAt : Int
  payload : Payload
deriving DecidableEq

/-- `getCached` (src/validate.js lines 63-68) once the S3 read is resolved:
`read` is what `getJSON(cacheKey(...))` produced (`none` on store miss, store
error, or an unconfigured bucket), and the entry is returned only while
`Date.now() - new Date(rec.cachedAt).getTime() < CACHE_TTL_MS`. -/
def getCached (ttl now : Int) (read : Option CacheRec) : Option Payload :=
  match read with
  | none => none
  | some r => if now - r.cachedAt < ttl then some r.payload else none

/-- The effectful boundary of one `checkVAT` request: the configured TTL, the
wall clock, the builtin date parser, the outcome of the single upstream call
(`Except.error` carries `err.message`, the empty string when the error has no
message), and the cache record the fallback read would yield. -/
structure ValidateEnv where
  ttl : Int
  now : Int
  parse : JsStr → Option Int
  upstream : Except JsStr ViesRaw
  cacheRead : Option CacheRec

/-- The error string of the soft-failure result (src/validate.js line 161):
`fallback:${err?.message || 'unavailable'}`. -/
def fallbackErr (msg : JsStr) : JsStr :=
  "fallback:".toList ++ (if msg = [] then "unavailable".toList else msg)

/-- `checkVAT` of src/validate.js lines 108-164, returning both the result
payload and the cache record written on the success path (`none` when no cache
write happens; a write that the store loses changes nothing observable, the
source swallows it). The best-effort audit write of lines 113-119 has no
observable effect on the result and is not represented. -/
def checkVATFull (env : ValidateEnv) (countryCode vatNumber email : Option JsStr) :
    Payload × Option CacheRec :=
  let cc := normCC (countryCode.getD [])
  let vn := normVN (vatNumber.getD [])
  let lookupId := cc ++ "-".toList ++ vn ++ "-".toList ++ toBase36 env.now.toNat
  match env.upstream with
  | .ok res =>
      let payload : Payload :=
        { countryCode := jsOr res.countryCode cc
          vatNumber := jsOr res.vatNumber vn
          valid := res.valid
          name := jsToNull res.name
          address := jsToNull res.address
          requestDate := normalizeRequestDate env.parse env.now res.requestDate
          lookupId := lookupId
          source := "vies".toList
          cacheTtlMs := env.ttl
          cached := none
          error := none }
      (payload, some { cachedAt := env.now, payload := payload })
  | .error e =>
      match getCached env.ttl env.now env.cacheRead with
      | some p =>
          ({ p with
              requestDate := env.now
              lookupId := lookupId
              source := "cache".toList
              cacheTtlMs := env.ttl
              cached := some true }, none)
      | none =>
          ({ countryCode := cc
             vatNumber := vn
             valid := false
             name := none
             address := none
             requestDate := env.now
             lookupId := lookupId
             source := "error".toList
             cacheTtlMs := env.ttl
             cached := none
             error := some (fallbackErr e) }, none)

/-- The caller-visible result of `checkVAT`. -/
def checkVAT (env : ValidateEnv) (countryCode vatNumber email : Option JsStr) : Payload :=
  (checkVATFull env countryCode vatNumber email).1

/-- The `validateVAT` legacy alias of src/validate.js lines 167-169. -/
def validateVAT (env : ValidateEnv) (countryCode vatNumber email : Option JsStr) : Payload :=
  checkVAT env countryCode vatNumber email

/-- The raw upstream response as the legacy module src/lib/validate.js returns
and caches it: the VIES fields only. A field VIES omits is `none`; there is no
`lookupId`, `source` or `cacheTtlMs` in this shape. -/
structure LibVies where
  countryCode : Option JsStr
  vatNumber : Option JsStr
  valid : Option Bool
  name : Option JsStr
  address : Option JsStr
  requestDate : Option Int
deriving DecidableEq

/-- A result of the legacy `validateVAT` (src/lib/validate.js): depending on
the path it is the raw VIES object, a cached VIES object plus `cached: true`,
or the soft-deny `{ countryCode, vatNumber, valid, error }`. Absent fields are
`none` — unlike `Payload`, nothing guarantees the declared fields are present. -/
structure LibResult where
  countryCode : Option JsStr
  vatNumber : Option JsStr
  valid : Option Bool
  name : Option JsStr
  address : Option JsStr
  requestDate : Option Int
  lookupId : Option JsStr
  source : Option JsStr
  cacheTtlMs : Option Int
  cached : Option Bool
  error : Option JsStr
deriving DecidableEq

/-- A raw VIES object viewed as a legacy result: its own fields, nothing else. -/
def libOfVies (r : LibVies) : LibResult :=
  { countryCode := r.countryCode
    vatNumber := r.vatNumber
    valid := r.valid
    name := r.name
    address := r.address
    requestDate := r.requestDate
    lookupId := none
    source := none
    cacheTtlMs := none
    cached := none
    error := none }

/-- A cache record of the legacy module (src/lib/validate.js lines 29-43): it
stores the raw VIES object as payload. -/
structure LibCacheRec where
  cachedAt : Int
  payload : LibVies
deriving DecidableEq

/-- `getCached` of src/lib/validate.js lines 17-27 once the S3 read is
resolved (`read = none` on miss, store error or unconfigured bucket). -/
def libGetCached (ttl now : Int) (read : Option LibCacheRec) : Option LibVies :=
  match read with
  | none => none
  | some r => if now - r.cachedAt < ttl then some r.payload else none

/-- The effectful boundary of one legacy `validateVAT` call: the
`VATFIX_PLUS=1` flag, TTL, wall clock, the upstream outcome, and the cache
record the fallback read would yield. -/
structure LibEnv where
  isPlus : Bool
  ttl : Int
  now : Int
  upstream : Except JsStr LibVies
  cacheRead : Option LibCacheRec

/-- `validateVAT` of src/lib/validate.js lines 60-102. With `VATFIX_PLUS=1`
the upstream call is wrapped in the cache-or-soft-deny fallback; on the legacy
(non-PLUS) path the upstream call is unguarded and its error propagates to the
caller (`Except.error`, the source comment: "let errors surface as 500
upstream"). The best-effort request log of lines 63-79 has no observable
effect and is not represented. -/
def libValidateVAT (env : LibEnv) (countryCode vatNumber email : JsStr) :
    Except JsStr LibResult :=
  if env.isPlus then
    match env.upstream with
    | .ok res => .ok (libOfVies res)
    | .error e =>
        match libGetCached env.ttl env.now env.cacheRead with
        | some c => .ok { libOfVies c with cached := some true }
        | none =>
            .ok { countryCode := some countryCode
                  vatNumber := some vatNumber
                  valid := some false
                  name := none
                  address := none
                  requestDate := none
                  lookupId := none
                  source := none
                  cacheTtlMs := none
                  cached := none
                  error := some (fallbackErr e) }
  else
    match env.upstream with
    | .ok res => .ok (libOfVies res)
    | .error e => .error e

/-- A meter window record (src/meter.js line 72):
`{ count, window, apiKey, limit }`. -/
structure MeterDoc where
  count : Int
  window : Int
  apiKey : JsStr
  limit : Int
deriving DecidableEq

/-- The decision `meterAndCheck` returns:
`{ allowed, reason?, remaining? }` (absent fields are `none`; the source's
`remaining: undefined` is likewise `none`). -/
structure MeterDecision where
  allowed : Bool
  reason : Option JsStr
  remaining : Option Int
deriving DecidableEq

/-- The meter's configuration (src/meter.js lines 6-19): whether `S3_BUCKET`
is set, `WINDOW_MS`, and `LIMIT`. -/
structure MeterCfg where
  bucket : Bool
  windowMs : Int
  limit : Int
deriving DecidableEq

/-- `meterAndCheck` of src/meter.js lines 63-92, with the store read resolved:
`stored` is what `getJSON(meterKey)` produced (`none` on a missing window
record, a store error, or an unreachable store — `getJSON` swallows every
failure into `null`). Returns the decision and the record written back
(`none` when nothing is written; a lost write changes nothing observable).
`window = Math.floor(now / WINDOW_MS) * WINDOW_MS`. -/
def meterAndCheck (cfg : MeterCfg) (apiKey : JsStr) (stored : Option MeterDoc) (now : Int) :
    MeterDecision × Option MeterDoc :=
  if !cfg.bucket || apiKey.isEmpty then
    ({ allowed := true, reason := none, remaining := none }, none)
  else
    let window := Int.fdiv now cfg.windowMs * cfg.windowMs
    let doc0 := stored.getD { count := 0, window := window, apiKey := apiKey, limit := cfg.limit }
    let doc := { doc0 with count := doc0.count + 1 }
    if doc.count > cfg.limit then
      ({ allowed := false, reason := some "rate_limit_exceeded".toList, remaining := some 0 },
       some doc)
    else
      ({ allowed := true, reason := none, remaining := some (max 0 (cfg.limit - doc.count)) },
       some doc)

/-- One sequential call against a functioning store: the store's state after
the call is the record the call wrote, or the unchanged state when the call
wrote nothing. -/
def meterStep (cfg : MeterCfg) (apiKey : JsStr) (now : Int) (s : Option MeterDoc) :
    Option MeterDoc :=
  match (meterAndCheck cfg apiKey s now).2 with
  | some d => some d
  | none => s

/-- The store's state after `k` sequential calls for the same key within one
window, starting from a fresh window (no record). -/
def meterStateAfter (cfg : MeterCfg) (apiKey : JsStr) (now : Int) : Nat → Option MeterDoc
  | 0 => none
  | k + 1 => meterStep cfg apiKey now (meterStateAfter cfg apiKey now k)

/-- The decision of the `k`-th sequential call (1-indexed) for one key in one
fresh window against a functioning store. -/
def meterNth (cfg : MeterCfg) (apiKey : JsStr) (now : Int) (k : Nat) : MeterDecision :=
  (meterAndCheck cfg apiKey (meterStateAfter cfg apiKey now (k - 1)) now).1

/-- Reading back `Char.ofNat` at a valid code point. -/
theorem toNat_ofNat_valid (n : Nat) (h : n.isValidChar) : (Char.ofNat n).toNat = n := by
  simp [Char.ofNat, h, Char.ofNatAux, Char.toNat, UInt32.toNat, BitVec.toNat_ofNatLt]

/-- No character with a code point in the ASCII letter range is whitespace. -/
theorem jsWhitespace_eq_false (c : Char) (h65 : 65 ≤ c.toNat) (h122 : c.toNat ≤ 122) :
    jsWhitespace c = false := by
  unfold jsWhitespace
  simp only [Bool.or_eq_false_iff, decide_eq_false_iff_not]
  omega

/-- Uppercasing a character twice is uppercasing it once. -/
theorem jsToUpperChar_idem (c : Char) : jsToUpperChar (jsToUpperChar c) = jsToUpperChar c := by
  unfold jsToUpperChar
  by_cases h : 97 ≤ c.toNat ∧ c.toNat ≤ 122
  · have hv : (c.toNat - 32).isValidChar := Or.inl (by omega)
    have ht := toNat_ofNat_valid _ hv
    rw [if_pos h, ht, if_neg (by omega)]
  · rw [if_neg h, if_neg h]

/-- Uppercasing preserves the whitespace class. -/
theorem jsWhitespace_jsToUpperChar (c : Char) :
    jsWhitespace (jsToUpperChar c) = jsWhitespace c := by
  unfold jsToUpperChar
  by_cases h : 97 ≤ c.toNat ∧ c.toNat ≤ 122
  · have hv : (c.toNat - 32).isValidChar := Or.inl (by omega)
    have ht := toNat_ofNat_valid _ hv
    rw [if_pos h, jsWhitespace_eq_false _ (by omega) (by omega),
      jsWhitespace_eq_false _ (by omega) (by omega)]
  · rw [if_neg h]

/-- Uppercasing a string twice is uppercasing it once. -/
theorem upperStr_idem (s : JsStr) : upperStr (upperStr s) = upperStr s := by
  unfold upperStr
  rw [List.map_map]
  exact List.map_congr_left fun c _ => jsToUpperChar_idem c

/-- `dropWhile` is idempotent. -/
theorem dropWhile_self (q : Char → Bool) (l : JsStr) :
    (l.dropWhile q).dropWhile q = l.dropWhile q := by
  induction l with
  | nil => rfl
  | cons a t ih =>
      by_cases h : q a = true
      · simp [List.dropWhile_cons, h, ih]
      · simp [List.dropWhile_cons, h]

/-- `dropWhile` never lengthens a list. -/
theorem dropWhile_length_le (q : Char → Bool) (l : JsStr) :
    (l.dropWhile q).length ≤ l.length := by
  induction l with
  | nil => simp
  | cons a t ih =>
      by_cases h : q a = true
      · simp only [List.dropWhile_cons, if_pos h, List.length_cons]
        omega
      · simp [List.dropWhile_cons, h]

/-- A nonempty `dropWhile` fixed point starts with a character the predicate
rejects. -/
theorem dropWhile_fix_head (q : Char → Bool) (a : Char) (t : JsStr)
    (h : List.dropWhile q (a :: t) = a :: t) : q a = false := by
  by_cases hq : q a = true
  · rw [List.dropWhile_cons, if_pos hq] at h
    have hlen := dropWhile_length_le q t
    rw [h] at hlen
    simp at hlen
  · simpa using hq

/-- A prefix of a `dropWhile` fixed point is itself a fixed point. -/
theorem dropWhile_fix_append (q : Char → Bool) (u v : JsStr)
    (h : List.dropWhile q (u ++ v) = u ++ v) : u.dropWhile q = u := by
  cases u with
  | nil => rfl
  | cons a w =>
      have ha : q a = false := dropWhile_fix_head q a (w ++ v) (by simpa using h)
      simp [List.dropWhile_cons, ha]

/-- What `dropWhile` removes is an initial segment. -/
theorem exists_append_dropWhile (q : Char → Bool) (l : JsStr) :
    ∃ s, l = s ++ l.dropWhile q := by
  induction l with
  | nil => exact ⟨[], rfl⟩
  | cons a t ih =>
      by_cases h : q a = true
      · obtain ⟨s, hs⟩ := ih
        refine ⟨a :: s, ?_⟩
        rw [List.dropWhile_cons, if_pos h]
        simpa using hs
      · exact ⟨[], by rw [List.dropWhile_cons, if_neg h]; rfl⟩

/-- `trimRightStr` keeps an initial segment of its input. -/
theorem trimRight_exists_tail (l : JsStr) : ∃ t, l = trimRightStr l ++ t := by
  obtain ⟨s, hs⟩ := exists_append_dropWhile jsWhitespace l.reverse
  refine ⟨s.reverse, ?_⟩
  unfold trimRightStr
  calc l = l.reverse.reverse := (List.reverse_reverse l).symm
    _ = (s ++ l.reverse.dropWhile jsWhitespace).reverse := by rw [← hs]
    _ = (l.reverse.dropWhile jsWhitespace).reverse ++ s.reverse := List.reverse_append s _

/-- `trimRightStr` is idempotent. -/
theorem trimRight_idem (l : JsStr) : trimRightStr (trimRightStr l) = trimRightStr l := by
  unfold trimRightStr
  rw [List.reverse_reverse, dropWhile_self]

/-- Trimming the right end of a left-trimmed string leaves it left-trimmed. -/
theorem dropWhile_trimRight_fix (l : JsStr) (h : l.dropWhile jsWhitespace = l) :
    (trimRightStr l).dropWhile jsWhitespace = trimRightStr l := by
  obtain ⟨t, ht⟩ := trimRight_exists_tail l
  refine dropWhile_fix_append jsWhitespace (trimRightStr l) t ?_
  rw [← ht]
  exact h

/-- `trimStr` is idempotent. -/
theorem trimStr_idem (l : JsStr) : trimStr (trimStr l) = trimStr l := by
  unfold trimStr trimLeftStr
  rw [dropWhile_trimRight_fix _ (dropWhile_self jsWhitespace l), trimRight_idem]

/-- Uppercasing commutes with trimming. -/
theorem trimStr_upper (l : JsStr) : trimStr (upperStr l) = upperStr (trimStr l) := by
  have hcomp : jsWhitespace ∘ jsToUpperChar = jsWhitespace := funext jsWhitespace_jsToUpperChar
  unfold trimStr trimLeftStr trimRightStr upperStr
  simp only [List.dropWhile_map, hcomp, ← List.map_reverse]

/-- The country-code normalization of `checkVAT` is idempotent. -/
theorem normCC_idem (s : JsStr) : normCC (normCC s) = normCC s := by
  unfold normCC
  rw [← trimStr_upper, upperStr_idem, trimStr_idem]

/-- The VAT-number normalization of `checkVAT` is idempotent. -/
theorem normVN_idem (s : JsStr) : normVN (normVN s) = normVN s := by
  unfold normVN stripWs
  rw [List.filter_filter]
  exact List.filter_congr fun c _ => Bool.and_self _

/-- A nonempty key is not `isEmpty`. -/
theorem isEmpty_false_of_ne_nil (key : JsStr) (hk : key ≠ []) : key.isEmpty = false := by
  cases key with
  | nil => exact absurd rfl hk
  | cons a t => rfl

/-- With a configured bucket and a present key, `meterAndCheck` reads, adds
one, writes, and decides. -/
theorem meterAndCheck_configured (cfg : MeterCfg) (key : JsStr) (stored : Option MeterDoc)
    (now : Int) (hb : cfg.bucket = true) (hk : key ≠ []) :
    meterAndCheck cfg key stored now
      = (let doc0 := stored.getD
           { count := 0, window := Int.fdiv now cfg.windowMs * cfg.windowMs,
             apiKey := key, limit := cfg.limit }
         let doc : MeterDoc := { doc0 with count := doc0.count + 1 }
         if doc.count > cfg.limit then
           ({ allowed := false, reason := some "rate_limit_exceeded".toList,
              remaining := some 0 }, some doc)
         else
           ({ allowed := true, reason := none,
              remaining := some (max 0 (cfg.limit - doc.count)) }, some doc)) := by
  have hk' := isEmpty_false_of_ne_nil key hk
  simp [meterAndCheck, hb, hk']

/-- The record written back by a configured call: the read count plus one
(also on a denied call — the write precedes the limit check). -/
theorem meterAndCheck_write (cfg : MeterCfg) (key : JsStr) (stored : Option MeterDoc)
    (now : Int) (hb : cfg.bucket = true) (hk : key ≠ []) :
    (meterAndCheck cfg key stored now).2
      = some (match stored with
              | some s0 => { s0 with count := s0.count + 1 }
              | none => { count := 1,
                          window := Int.fdiv now cfg.windowMs * cfg.windowMs,
                          apiKey := key, limit := cfg.limit }) := by
  rw [meterAndCheck_configured cfg key stored now hb hk]
  cases stored with
  | none => rw [apply_ite Prod.snd]; simp
  | some s0 => rw [apply_ite Prod.snd]; simp

/-- After `k + 1` sequential calls in one fresh window the stored count is
`k + 1`. -/
theorem meterStateAfter_configured (cfg : MeterCfg) (key : JsStr) (now : Int)
    (hb : cfg.bucket = true) (hk : key ≠ []) (k : Nat) :
    meterStateAfter cfg key now (k + 1)
      = some { count := (k : Int) + 1,
               window := Int.fdiv now cfg.windowMs * cfg.windowMs,
               apiKey := key, limit := cfg.limit } := by
  induction k with
  | zero =>
      show meterStep cfg key now (meterStateAfter cfg key now 0) = _
      unfold meterStep
      rw [show meterStateAfter cfg key now 0 = none from rfl,
        meterAndCheck_write cfg key none now hb hk]
      norm_num
  | succ j ih =>
      show meterStep cfg key now (meterStateAfter cfg key now (j + 1)) = _
      unfold meterStep
      rw [ih, meterAndCheck_write cfg key _ now hb hk]
      push_cast
      ring_nf

/-- The decision of the `j+1`-th sequential call in one fresh window: the
post-increment count is `j+1`, denied exactly when it exceeds the limit. -/
theorem meterNth_eval (cfg : MeterCfg) (key : JsStr) (now : Int)
    (hb : cfg.bucket = true) (hk : key ≠ []) (j : Nat) :
    meterNth cfg key now (j + 1)
      = if cfg.limit < (j : Int) + 1 then
          { allowed := false, reason := some "rate_limit_exceeded".toList, remaining := some 0 }
        else
          { allowed := true, reason := none,
            remaining := some (max 0 (cfg.limit - ((j : Int) + 1))) } := by
  unfold meterNth
  simp only [Nat.add_sub_cancel]
  cases j with
  | zero =>
      rw [show meterStateAfter cfg key now 0 = none from rfl,
        meterAndCheck_configured cfg key none now hb hk]
      rw [apply_ite Prod.fst]
      norm_num
  | succ i =>
      rw [meterStateAfter_configured cfg key now hb hk i,
        meterAndCheck_configured cfg key _ now hb hk]
      rw [apply_ite Prod.fst]
      push_cast
      norm_num

/-- C4: for a fresh window with configured limit `L`, sequential requests
`1..L` for one key are admitted with `remaining = L-1, L-2, ..., 0`, and
request `L+1` is denied with `reason = "rate_limit_exceeded"` and
`remaining = 0` (src/meter.js lines 63-92). -/
theorem c4_meter_window_quota (cfg : MeterCfg) (key : JsStr) (now : Int) (k : Nat)
    (hb : cfg.bucket = true) (hk : key ≠ []) :
    (1 ≤ k → (k : Int) ≤ cfg.limit →
       meterNth cfg key now k
         = { allowed := true, reason := none, remaining := some (cfg.limit - (k : Int)) })
    ∧ ((k : Int) = cfg.limit →
       meterNth cfg key now (k + 1)
         = { allowed := false, reason := some "rate_limit_exceeded".toList,
             remaining := some 0 }) := by
  constructor
  · intro h1 hle
    obtain ⟨j, rfl⟩ : ∃ j, k = j + 1 := ⟨k - 1, by omega⟩
    rw [meterNth_eval cfg key now hb hk j]
    rw [if_neg (by push_cast at hle ⊢; omega)]
    have hmax : max 0 (cfg.limit - ((j : Int) + 1)) = cfg.limit - ((j : Nat) + 1 : Nat) := by
      push_cast at hle ⊢
      omega
    rw [hmax]
  · intro hlim
    rw [meterNth_eval cfg key now hb hk k]
    rw [if_pos (by omega)]

/-- C4 witness: limit 5, requests 5 and 6. -/
theorem c4_meter_window_quota_witness :
    meterNth { bucket := true, windowMs := 60000, limit := 5 } "k".toList 0 5
      = { allowed := true, reason := none, remaining := some 0 }
    ∧ meterNth { bucket := true, windowMs := 60000, limit := 5 } "k".toList 0 6
      = { allowed := false, reason := some "rate_limit_exceeded".toList,
          remaining := some 0 } := by
  have h := c4_meter_window_quota { bucket := true, windowMs := 60000, limit := 5 }
    "k".toList 0 5 rfl (by decide)
  refine ⟨?_, h.2 (by norm_num)⟩
  have h1 := h.1 (by norm_num) (by norm_num)
  simpa using h1

/-- C5: the meter fails open — with an unconfigured bucket or a missing API
key it returns `allowed = true` (and writes nothing), and with an unreachable
store (every read resolves to nothing, every write is swallowed) it returns
`allowed = true` no matter how many calls are made, since each call then
counts only itself (src/meter.js lines 63-92; `getJSON`/`putJSON` swallow all
store errors). The positive-limit hypothesis reflects the configured quota of
§4.2 (default 120). -/
theorem c5_meter_fails_open (cfg : MeterCfg) (key : JsStr) (stored : Option MeterDoc)
    (now : Int) :
    (cfg.bucket = false ∨ key = [] →
       meterAndCheck cfg key stored now
         = ({ allowed := true, reason := none, remaining := none }, none))
    ∧ (cfg.bucket = true → key ≠ [] → stored = none → 1 ≤ cfg.limit →
       ((meterAndCheck cfg key stored now).1).allowed = true) := by
  constructor
  · rintro (hb | hkey)
    · simp [meterAndCheck, hb]
    · subst hkey
      simp [meterAndCheck]
  · rintro hb hk rfl hL
    rw [meterAndCheck_configured cfg key none now hb hk, apply_ite Prod.fst]
    rw [if_neg (by simp; omega)]

/-- C5 witness: no bucket configured; and an unreachable store with the
default limit 120. -/
theorem c5_meter_fails_open_witness :
    meterAndCheck { bucket := false, windowMs := 60000, limit := 120 } "k".toList none 0
      = ({ allowed := true, reason := none, remaining := none }, none)
    ∧ ((meterAndCheck { bucket := true, windowMs := 60000, limit := 120 }
          "k".toList none 0).1).allowed = true := by
  exact ⟨(c5_meter_fails_open { bucket := false, windowMs := 60000, limit := 120 }
            "k".toList none 0).1 (Or.inl rfl),
         (c5_meter_fails_open { bucket := true, windowMs := 60000, limit := 120 }
            "k".toList none 0).2 rfl (by decide) rfl (by norm_num)⟩

/-- C10: every configured call — denied ones included, the write precedes the
limit check — writes back the read count plus one, and after `k` sequential
calls in one window the stored count is exactly `k`, growing past the limit
while requests continue (src/meter.js lines 71-80). -/
theorem c10_counter_increments (cfg : MeterCfg) (key : JsStr) (stored : Option MeterDoc)
    (now : Int) (k : Nat) (hb : cfg.bucket = true) (hk : key ≠ []) :
    (∃ d : MeterDoc,
        (meterAndCheck cfg key stored now).2 = some d
        ∧ d.count = (stored.map MeterDoc.count).getD 0 + 1)
    ∧ (1 ≤ k →
        meterStateAfter cfg key now k
          = some { count := (k : Int),
                   window := Int.fdiv now cfg.windowMs * cfg.windowMs,
                   apiKey := key, limit := cfg.limit }) := by
  constructor
  · rw [meterAndCheck_write cfg key stored now hb hk]
    cases stored with
    | none => exact ⟨_, rfl, by simp⟩
    | some s0 => exact ⟨_, rfl, by simp⟩
  · intro h1
    obtain ⟨j, rfl⟩ : ∃ j, k = j + 1 := ⟨k - 1, by omega⟩
    rw [meterStateAfter_configured cfg key now hb hk j]
    push_cast
    ring_nf

/-- C10 witness: a call that finds count 7 with limit 5 (already denied) still
writes back 8, and five sequential calls leave count 5. -/
theorem c10_counter_increments_witness :
    (∃ d : MeterDoc,
        (meterAndCheck { bucket := true, windowMs := 60000, limit := 5 } "k".toList
            (some { count := 7, window := 0, apiKey := "k".toList, limit := 5 }) 0).2
          = some d
        ∧ d.count = ((some { count := 7, window := 0, apiKey := "k".toList,
                             limit := 5 } : Option MeterDoc).map MeterDoc.count).getD 0 + 1)
    ∧ meterStateAfter { bucket := true, windowMs := 60000, limit := 5 } "k".toList 0 5
        = some { count := (5 : Nat), window := Int.fdiv 0 60000 * 60000,
                 apiKey := "k".toList, limit := 5 } := by
  have h := c10_counter_increments { bucket := true, windowMs := 60000, limit := 5 }
    "k".toList (some { count := 7, window := 0, apiKey := "k".toList, limit := 5 }) 0 5
    rfl (by decide)
  exact ⟨h.1, h.2 (by norm_num)⟩

/-- The source tag of every `checkVAT` result is one of the three declared
values. -/
theorem checkVAT_source_cases (env : ValidateEnv) (countryCode vatNumber email : Option JsStr) :
    (checkVAT env countryCode vatNumber email).source = "vies".toList
    ∨ (checkVAT env countryCode vatNumber email).source = "cache".toList
    ∨ (checkVAT env countryCode vatNumber email).source = "error".toList := by
  cases henv : env.upstream with
  | ok res => left; simp [checkVAT, checkVATFull, henv]
  | error e =>
      cases hc : getCached env.ttl env.now env.cacheRead with
      | some p => right; left; simp [checkVAT, checkVATFull, henv, hc]
      | none => right; right; simp [checkVAT, checkVATFull, henv, hc]

/-- Every `checkVAT` result carries the configured TTL. -/
theorem checkVAT_ttl (env : ValidateEnv) (countryCode vatNumber email : Option JsStr) :
    (checkVAT env countryCode vatNumber email).cacheTtlMs = env.ttl := by
  cases henv : env.upstream with
  | ok res => simp [checkVAT, checkVATFull, henv]
  | error e =>
      cases hc : getCached env.ttl env.now env.cacheRead with
      | some p => simp [checkVAT, checkVATFull, henv, hc]
      | none => simp [checkVAT, checkVATFull, henv, hc]

/-- On the soft-failure tag the declared nullable fields are explicit nulls
and the error string is present and nonempty. -/
theorem checkVAT_error_fields (env : ValidateEnv) (countryCode vatNumber email : Option JsStr) :
    (checkVAT env countryCode vatNumber email).source = "error".toList →
      (checkVAT env countryCode vatNumber email).valid = false
      ∧ (checkVAT env countryCode vatNumber email).name = none
      ∧ (checkVAT env countryCode vatNumber email).address = none
      ∧ ∃ m, (checkVAT env countryCode vatNumber email).error = some m ∧ m ≠ [] := by
  cases henv : env.upstream with
  | ok res =>
      intro h
      rw [show (checkVAT env countryCode vatNumber email).source = "vies".toList by
        simp [checkVAT, checkVATFull, henv]] at h
      exact absurd h (by decide)
  | error e =>
      cases hc : getCached env.ttl env.now env.cacheRead with
      | some p =>
          intro h
          rw [show (checkVAT env countryCode vatNumber email).source = "cache".toList by
            simp [checkVAT, checkVATFull, henv, hc]] at h
          exact absurd h (by decide)
      | none =>
          intro _
          refine ⟨?_, ?_, ?_, fallbackErr e, ?_, by simp [fallbackErr]⟩ <;>
            simp [checkVAT, checkVATFull, henv, hc]

/-- C1 (amended): the PLUS engine's `checkVAT` (src/validate.js lines
108-164) never throws — it is total — and on every code path (upstream
success, upstream failure with a fresh cache entry, upstream failure without
one; cache-store failures surface only as a `none` read) it returns a result
with all declared fields present, nullable ones as explicit nulls (the
`Payload` type carries every declared field, so totality is field
completeness), with `source` one of the three declared tags and the error
path's nullable fields explicit nulls. The original claim also covered the
non-PLUS legacy path of src/lib/validate.js, which propagates upstream errors
(see the counterexample) and is excluded here. -/
theorem c1_checkVAT_total (env : ValidateEnv) (countryCode vatNumber email : Option JsStr) :
    ((checkVAT env countryCode vatNumber email).source = "vies".toList
      ∨ (checkVAT env countryCode vatNumber email).source = "cache".toList
      ∨ (checkVAT env countryCode vatNumber email).source = "error".toList)
    ∧ (checkVAT env countryCode vatNumber email).cacheTtlMs = env.ttl
    ∧ ((checkVAT env countryCode vatNumber email).source = "error".toList →
        (checkVAT env countryCode vatNumber email).valid = false
        ∧ (checkVAT env countryCode vatNumber email).name = none
        ∧ (checkVAT env countryCode vatNumber email).address = none
        ∧ ∃ m, (checkVAT env countryCode vatNumber email).error = some m ∧ m ≠ []) :=
  ⟨checkVAT_source_cases env countryCode vatNumber email,
   checkVAT_ttl env countryCode vatNumber email,
   checkVAT_error_fields env countryCode vatNumber email⟩

/-- C1 counterexample: the legacy entry point `validateVAT` of
src/lib/validate.js, on the non-PLUS path with a failing upstream, propagates
the upstream error to the caller — it throws instead of returning a result
object. -/
theorem c1_legacy_throws_counterexample :
    libValidateVAT
        { isPlus := false, ttl := 43200000, now := 0,
          upstream := Except.error "ECONNREFUSED".toList, cacheRead := none }
        "DE".toList "123456789".toList "a@b.example".toList
      = Except.error "ECONNREFUSED".toList := by
  rfl

/-- C2: when the upstream call fails and a fresh cache entry exists for the
normalized pair, the result preserves the cached payload's `valid`, `name`
and `address`, tags `source = "cache"` and `cached = true`, and stamps a
fresh `requestDate` (src/validate.js lines 137-149). -/
theorem c2_cache_fallback (env : ValidateEnv) (countryCode vatNumber email : Option JsStr)
    (e : JsStr) (r : CacheRec)
    (hu : env.upstream = Except.error e)
    (hr : env.cacheRead = some r)
    (hfresh : env.now - r.cachedAt < env.ttl) :
    (checkVAT env countryCode vatNumber email).valid = r.payload.valid
    ∧ (checkVAT env countryCode vatNumber email).name = r.payload.name
    ∧ (checkVAT env countryCode vatNumber email).address = r.payload.address
    ∧ (checkVAT env countryCode vatNumber email).source = "cache".toList
    ∧ (checkVAT env countryCode vatNumber email).cached = some true
    ∧ (checkVAT env countryCode vatNumber email).requestDate = env.now := by
  have hc : getCached env.ttl env.now env.cacheRead = some r.payload := by
    rw [hr]
    simp [getCached, hfresh]
  refine ⟨?_, ?_, ?_, ?_, ?_, ?_⟩ <;> simp [checkVAT, checkVATFull, hu, hc]

/-- A sample validation result, cached below the TTL by the C2 witness. -/
def samplePayload : Payload :=
  { countryCode := "DE".toList, vatNumber := "01234567890".toList, valid := true,
    name := some "MUSTERFIRMA GMBH".toList, address := some "MUSTERSTRASSE 1".toList,
    requestDate := 42, lookupId := "DE-01234567890-0".toList, source := "vies".toList,
    cacheTtlMs := 43200000, cached := none, error := none }

/-- The C2 witness environment: failing upstream, fresh cache entry. -/
def sampleEnvCache : ValidateEnv :=
  { ttl := 43200000, now := 100, parse := fun _ => none,
    upstream := Except.error "ETIMEDOUT".toList,
    cacheRead := some { cachedAt := 0, payload := samplePayload } }

/-- C2 witness: a concrete failing-upstream, fresh-cache request. -/
theorem c2_cache_fallback_witness :
    (checkVAT sampleEnvCache none none none).valid = samplePayload.valid
    ∧ (checkVAT sampleEnvCache none none none).name = samplePayload.name
    ∧ (checkVAT sampleEnvCache none none none).address = samplePayload.address
    ∧ (checkVAT sampleEnvCache none none none).source = "cache".toList
    ∧ (checkVAT sampleEnvCache none none none).cached = some true
    ∧ (checkVAT sampleEnvCache none none none).requestDate = 100 :=
  c2_cache_fallback sampleEnvCache none none none "ETIMEDOUT".toList
    { cachedAt := 0, payload := samplePayload } rfl rfl (by norm_num [sampleEnvCache])

/-- C3: when the upstream call fails and no fresh cache entry exists, the
call still returns (the function is total) a soft failure: `valid = false`,
`name = null`, `address = null`, `source = "error"`, and a nonempty error
string `fallback:` plus the upstream failure's message (src/validate.js lines
150-163). -/
theorem c3_soft_failure (env : ValidateEnv) (countryCode vatNumber email : Option JsStr)
    (e : JsStr)
    (hu : env.upstream = Except.error e)
    (hmiss : getCached env.ttl env.now env.cacheRead = none) :
    (checkVAT env countryCode vatNumber email).valid = false
    ∧ (checkVAT env countryCode vatNumber email).name = none
    ∧ (checkVAT env countryCode vatNumber email).address = none
    ∧ (checkVAT env countryCode vatNumber email).source = "error".toList
    ∧ (checkVAT env countryCode vatNumber email).error = some (fallbackErr e)
    ∧ fallbackErr e ≠ []
    ∧ ∃ m, fallbackErr e = "fallback:".toList ++ m := by
  refine ⟨?_, ?_, ?_, ?_, ?_, by simp [fallbackErr], ⟨_, rfl⟩⟩ <;>
    simp [checkVAT, checkVATFull, hu, hmiss]

/-- The C3 witness environment: failing upstream without a message, no cache
entry (the spec's `(IT, 99999999999)` cold-cache scenario). -/
def sampleEnvMiss : ValidateEnv :=
  { ttl := 43200000, now := 100, parse := fun _ => none,
    upstream := Except.error [], cacheRead := none }

/-- C3 witness: a concrete failing-upstream, empty-cache request. -/
theorem c3_soft_failure_witness :
    (checkVAT sampleEnvMiss (some "IT".toList) (some "99999999999".toList) none).valid = false
    ∧ (checkVAT sampleEnvMiss (some "IT".toList) (some "99999999999".toList) none).name = none
    ∧ (checkVAT sampleEnvMiss (some "IT".toList) (some "99999999999".toList) none).address = none
    ∧ (checkVAT sampleEnvMiss (some "IT".toList) (some "99999999999".toList) none).source
        = "error".toList
    ∧ (checkVAT sampleEnvMiss (some "IT".toList) (some "99999999999".toList) none).error
        = some (fallbackErr [])
    ∧ fallbackErr [] ≠ []
    ∧ ∃ m, fallbackErr [] = "fallback:".toList ++ m :=
  c3_soft_failure sampleEnvMiss (some "IT".toList) (some "99999999999".toList) none [] rfl rfl

/-- C6: a cache entry is fresh exactly while `now - cachedAt < TTL` (strict),
decided lazily at read time: an entry written at `t0` is served at
`t0 + TTL - 1` ms and treated as absent at `t0 + TTL + 1` ms
(src/validate.js lines 63-68). -/
theorem c6_ttl_boundary (ttl now t0 : Int) (r : CacheRec) (p : Payload) :
    (getCached ttl now (some r) = some r.payload ↔ now - r.cachedAt < ttl)
    ∧ getCached ttl (t0 + ttl - 1) (some { cachedAt := t0, payload := p }) = some p
    ∧ getCached ttl (t0 + ttl + 1) (some { cachedAt := t0, payload := p }) = none := by
  refine ⟨⟨fun h => ?_, fun h => ?_⟩, ?_, ?_⟩
  · by_contra hs
    simp only [getCached, if_neg hs] at h
    exact Option.noConfusion h
  · simp only [getCached, if_pos h]
  · simp only [getCached]
    rw [if_pos (by omega)]
  · simp only [getCached]
    rw [if_neg (by omega)]

/-- C7: on a successful upstream call the `requestDate` placed in the result
and in the written cache entry is the instant `normalizeRequestDate` yields —
always the `toISOString` of a valid date, never the raw upstream value — and
whenever the upstream timestamp is unparseable (an Invalid Date, a string the
date parser rejects even after the timezone fix, or a non-date value) the
current time is substituted (src/validate.js lines 90-101, 121-136). -/
theorem c7_request_date (env : ValidateEnv) (countryCode vatNumber email : Option JsStr)
    (res : ViesRaw) (hu : env.upstream = Except.ok res) :
    (checkVAT env countryCode vatNumber email).requestDate
        = normalizeRequestDate env.parse env.now res.requestDate
    ∧ (∃ c : CacheRec,
         (checkVATFull env countryCode vatNumber email).2 = some c
         ∧ c.payload = checkVAT env countryCode vatNumber email
         ∧ c.cachedAt = env.now)
    ∧ (res.requestDate = RDVal.other →
         (checkVAT env countryCode vatNumber email).requestDate = env.now)
    ∧ (res.requestDate = RDVal.date none →
         (checkVAT env countryCode vatNumber email).requestDate = env.now)
    ∧ (∀ s, res.requestDate = RDVal.str s → env.parse (fixTz s) = none →
         (checkVAT env countryCode vatNumber email).requestDate = env.now)
    ∧ (∀ t, res.requestDate = RDVal.date (some t) →
         (checkVAT env countryCode vatNumber email).requestDate = t)
    ∧ (∀ s t, res.requestDate = RDVal.str s → env.parse (fixTz s) = some t →
         (checkVAT env countryCode vatNumber email).requestDate = t) := by
  have h1 : (checkVAT env countryCode vatNumber email).requestDate
      = normalizeRequestDate env.parse env.now res.requestDate := by
    simp [checkVAT, checkVATFull, hu]
  have h2 : ∃ c : CacheRec,
      (checkVATFull env countryCode vatNumber email).2 = some c
      ∧ c.payload = checkVAT env countryCode vatNumber email
      ∧ c.cachedAt = env.now := by
    refine ⟨{ cachedAt := env.now,
              payload := checkVAT env countryCode vatNumber email }, ?_, rfl, rfl⟩
    simp [checkVAT, checkVATFull, hu]
  refine ⟨h1, h2, ?_, ?_, ?_, ?_, ?_⟩
  · intro hrd
    rw [h1, hrd]
    rfl
  · intro hrd
    rw [h1, hrd]
    rfl
  · intro s hrd hp
    rw [h1, hrd]
    simp [normalizeRequestDate, hp]
  · intro t hrd
    rw [h1, hrd]
    rfl
  · intro s t hrd hp
    rw [h1, hrd]
    simp [normalizeRequestDate, hp]

/-- The C7 witness environment: a successful upstream call whose timestamp is
a string that the date parser rejects. -/
def sampleEnvVies : ValidateEnv :=
  { ttl := 43200000, now := 777, parse := fun _ => none,
    upstream := Except.ok
      { countryCode := "DE".toList, vatNumber := "12345678912".toList, valid := true,
        name := "MUSTERFIRMA GMBH".toList, address := "MUSTERSTRASSE 1".toList,
        requestDate := RDVal.str "not-a-date".toList },
    cacheRead := none }

/-- C7 witness: the unparseable upstream timestamp is replaced by the current
time, in the result and in the cache entry alike. -/
theorem c7_request_date_witness :
    (checkVAT sampleEnvVies none none none).requestDate
        = normalizeRequestDate sampleEnvVies.parse 777
            (RDVal.str "not-a-date".toList)
    ∧ (checkVAT sampleEnvVies none none none).requestDate = 777
    ∧ (∃ c : CacheRec,
         (checkVATFull sampleEnvVies none none none).2 = some c
         ∧ c.payload = checkVAT sampleEnvVies none none none
         ∧ c.cachedAt = 777) := by
  have h := c7_request_date sampleEnvVies none none none
    { countryCode := "DE".toList, vatNumber := "12345678912".toList, valid := true,
      name := "MUSTERFIRMA GMBH".toList, address := "MUSTERSTRASSE 1".toList,
      requestDate := RDVal.str "not-a-date".toList } rfl
  exact ⟨h.1, h.2.2.2.2.1 "not-a-date".toList rfl rfl, h.2.1⟩

/-- C8: the cache-key normalization is idempotent — normalizing the pair
twice yields the same key as normalizing once — and the spec's examples map
to equal keys: `" de "`, `"de"` and `"DE"` coincide, as do `"012 345"` and
`"012345"` (src/validate.js lines 21-22, 109-110). -/
theorem c8_normalization_idempotent :
    (∀ countryCode vatNumber : JsStr,
        cacheKey (normCC (normCC countryCode)) (normVN (normVN vatNumber))
          = cacheKey (normCC countryCode) (normVN vatNumber))
    ∧ cacheKey (normCC " de ".toList) (normVN "012 345".toList)
        = cacheKey (normCC "DE".toList) (normVN "012345".toList)
    ∧ cacheKey (normCC "de".toList) (normVN "012345".toList)
        = cacheKey (normCC "DE".toList) (normVN "012345".toList) := by
  refine ⟨fun cc vn => ?_, by decide, by decide⟩
  rw [normCC_idem, normVN_idem]

/-- C9: `checkVAT` tolerates absent inputs — an undefined or null
`countryCode` or `vatNumber` is coerced to the empty string before
normalization, key construction and the upstream call (`String(x || '')`),
so the call still produces a well-formed result instead of faulting
(src/validate.js lines 108-111, 21-22). -/
theorem c9_absent_inputs (env : ValidateEnv) (countryCode vatNumber email : Option JsStr) :
    checkVATFull env none vatNumber email = checkVATFull env (some []) vatNumber email
    ∧ checkVATFull env countryCode none email = checkVATFull env countryCode (some []) email
    ∧ ((checkVAT env none none email).source = "vies".toList
       ∨ (checkVAT env none none email).source = "cache".toList
       ∨ (checkVAT env none none email).source = "error".toList) :=
  ⟨rfl, rfl, checkVAT_source_cases env none none email⟩
